import Mathlib

/-!
Shallow embedding of the Stripe webhook reconciliation server
(`/webhooks/stripe` route): the event-to-state core that maps billing
lifecycle events to partial updates on per-user records stored in a
Realtime-Database-style keyed store.  The embedding follows the revision
of the handler that implements all five event kinds
(customer.subscription.created/updated/deleted, invoice.paid,
invoice.payment_failed).
-/

/-- Embedded `subscription` object written by the
customer.subscription.created/updated handler. -/
structure SubscriptionData where
  subscriptionId : String
  priceId : String
  status : String
  currentPeriodEnd : Int
  cancelAtPeriodEnd : Bool
  trialEnd : Option Int
deriving Repr, DecidableEq

/-- Invoice metadata stored under `users/<uid>/invoices/<invoiceId>` by the
invoice.paid handler. -/
structure InvoiceRecord where
  status : Option String
  currency : String
  amountPaid : Int
  hostedInvoiceUrl : Option String
  invoicePdf : Option String
  created : Int
deriving Repr, DecidableEq

/-- A user record as stored under `users/<uid>`.  The named fields are the
ones the webhook handlers read or write; `otherFields` stands for any
further keys owned by other collaborators, which a Realtime Database
partial `update` leaves untouched. -/
structure UserRecord where
  uid : String
  displayName : String
  email : String
  createdAt : String
  lastLoginAt : String
  summaryCount : Nat
  dailySummaryCount : Nat
  dailySummaryResetTime : String
  plan : String
  stripeCustomerId : Option String
  subscription : Option SubscriptionData
  invoices : List (String × InvoiceRecord)
  otherFields : List (String × String)
deriving Repr, DecidableEq

/-- The `users` tree: children keyed by user id (keys are unique in the
store; the list is in key order, matching Object.keys enumeration). -/
abbrev Store := List (String × UserRecord)

/-- Normalized webhook events, one constructor per `switch` case of the
handler plus `unhandled` for any unrecognized `event.type`.
`itemPriceIds` lists `subscription.items.data[i].price.id`. -/
inductive StripeEvent where
  | subscriptionUpserted (customerId subscriptionId : String)
      (itemPriceIds : List String) (status : String)
      (currentPeriodEnd : Int) (cancelAtPeriodEnd : Bool) (trialEnd : Option Int)
  | subscriptionDeleted (customerId : String)
  | invoicePaid (customerId invoiceId : String) (invoice : InvoiceRecord)
  | invoicePaymentFailed (customerId : String) (billingReason : String)
  | unhandled (rawType : String)
deriving Repr, DecidableEq

/-- Failure identities of the handler.  In the source every one is a thrown
exception caught by the single catch block: `signatureInvalid` is the
throw from stripe.webhooks.constructEvent, `userNotFound` is
`new Error("No user found for customer")`, `malformedEvent` is the
TypeError raised by `subscription.items.data[0].price` when the item list
is empty, `storeUnavailable` is a rejected database call. -/
inductive WebhookErr where
  | signatureInvalid
  | userNotFound
  | malformedEvent
  | storeUnavailable
deriving Repr, DecidableEq

/-- Store accesses performed while handling one event, in program order. -/
inductive StoreAccess where
  | indexLookup (customerId : String)
  | readUser
  | writeUser
  | writeInvoice (invoiceId : String)
deriving Repr, DecidableEq

/-- The `orderByChild("stripeCustomerId").equalTo(customerId)` match
predicate for a single record. -/
def customerMatches (customerId : String) (r : UserRecord) : Bool :=
  r.stripeCustomerId == some customerId

/-- `snapshot.exists()` for the customer-id query. -/
def customerExists (customerId : String) (store : Store) : Bool :=
  store.any fun p => customerMatches customerId p.2

/-- Locate the first record matching the customer id (`Object.keys(users)[0]`)
and replace it by `f` of its current value; all other children are left
untouched, as a keyed partial write does. -/
def applyAtCustomer (customerId : String) (f : UserRecord → UserRecord) :
    Store → Store
  | [] => []
  | (k, r) :: rest =>
      if customerMatches customerId r then (k, f r) :: rest
      else (k, r) :: applyAtCustomer customerId f rest

/-- Plan derivation of the created/updated handler:
`subscription.status === "active" || subscription.status === "trialing"
? "pro" : "free"`. -/
def planFor (status : String) : String :=
  if status == "active" || status == "trialing" then "pro" else "free"

/-- The `userRef.update({...})` map of the created/updated handler: the
identity/usage fields are written back with their current values, `plan`
is derived from the incoming status, `stripeCustomerId` is written with
the event's customer id, and `subscription` is replaced wholesale.
`invoices` and `otherFields` are absent from the update map, so the
partial update preserves them. -/
def upsertRecord (customerId subscriptionId priceId status : String)
    (currentPeriodEnd : Int) (cancelAtPeriodEnd : Bool) (trialEnd : Option Int)
    (r : UserRecord) : UserRecord :=
  { uid := r.uid
    displayName := r.displayName
    email := r.email
    createdAt := r.createdAt
    lastLoginAt := r.lastLoginAt
    summaryCount := r.summaryCount
    dailySummaryCount := r.dailySummaryCount
    dailySummaryResetTime := r.dailySummaryResetTime
    plan := planFor status
    stripeCustomerId := some customerId
    subscription := some
      { subscriptionId := subscriptionId
        priceId := priceId
        status := status
        currentPeriodEnd := currentPeriodEnd
        cancelAtPeriodEnd := cancelAtPeriodEnd
        trialEnd := trialEnd }
    invoices := r.invoices
    otherFields := r.otherFields }

/-- The `userRef.update({...})` map of the customer.subscription.deleted
handler: identity/usage fields written back unchanged, `plan` set to
"free", `subscription` cleared; `stripeCustomerId`, `invoices` and
`otherFields` are absent from the map and therefore preserved. -/
def deletedRecord (r : UserRecord) : UserRecord :=
  { uid := r.uid
    displayName := r.displayName
    email := r.email
    createdAt := r.createdAt
    lastLoginAt := r.lastLoginAt
    summaryCount := r.summaryCount
    dailySummaryCount := r.dailySummaryCount
    dailySummaryResetTime := r.dailySummaryResetTime
    plan := "free"
    stripeCustomerId := r.stripeCustomerId
    subscription := none
    invoices := r.invoices
    otherFields := r.otherFields }

/-- The invoice.payment_failed update
`{...currentUserData, plan: "free", subscription: null}`: the spread
writes every current field back unchanged, then overrides `plan` and
`subscription`. -/
def failedTrialRecord (r : UserRecord) : UserRecord :=
  { r with plan := "free", subscription := none }

/-- Upsert of one child of the `invoices` map, as
`userRef.child("invoices").child(invoice.id).set(invoiceData)` does:
re-delivery overwrites the same id. -/
def setInvoice (invoiceId : String) (inv : InvoiceRecord) :
    List (String × InvoiceRecord) → List (String × InvoiceRecord)
  | [] => [(invoiceId, inv)]
  | (k, v) :: rest =>
      if k == invoiceId then (invoiceId, inv) :: rest
      else (k, v) :: setInvoice invoiceId inv rest

/-- Effect of the invoice.paid handler on the matched record: only the
`invoices/<invoiceId>` child is written. -/
def paidRecord (invoiceId : String) (inv : InvoiceRecord) (r : UserRecord) :
    UserRecord :=
  { r with invoices := setInvoice invoiceId inv r.invoices }

/-- One pass of the handler's switch over a verified event.  `storeOk`
models database availability: when false, the first database call rejects
and the thrown error reaches the catch block before any write.  Returns
the outcome (new store or thrown error) together with the store accesses
performed.  The invoice.paid handler writes the same invoice child twice
(once directly, once inside its inner try block), hence the doubled
write. -/
def runEvent (storeOk : Bool) (ev : StripeEvent) (store : Store) :
    Except WebhookErr Store × List StoreAccess :=
  match ev with
  | .subscriptionUpserted cid subId itemPriceIds status cpe cape te =>
      if storeOk = false then (.error .storeUnavailable, [.indexLookup cid])
      else if customerExists cid store = false then
        (.error .userNotFound, [.indexLookup cid])
      else
        match itemPriceIds with
        | [] => (.error .malformedEvent, [.indexLookup cid, .readUser])
        | priceId :: _ =>
            (.ok (applyAtCustomer cid
                    (upsertRecord cid subId priceId status cpe cape te) store),
             [.indexLookup cid, .readUser, .writeUser])
  | .subscriptionDeleted cid =>
      if storeOk = false then (.error .storeUnavailable, [.indexLookup cid])
      else if customerExists cid store then
        (.ok (applyAtCustomer cid deletedRecord store),
         [.indexLookup cid, .readUser, .writeUser])
      else (.ok store, [.indexLookup cid])
  | .invoicePaid cid invId inv =>
      if storeOk = false then (.error .storeUnavailable, [.indexLookup cid])
      else if customerExists cid store then
        (.ok (applyAtCustomer cid (paidRecord invId inv)
                (applyAtCustomer cid (paidRecord invId inv) store)),
         [.indexLookup cid, .writeInvoice invId, .writeInvoice invId])
      else (.ok store, [.indexLookup cid])
  | .invoicePaymentFailed cid reason =>
      if reason == "subscription_create" then
        if storeOk = false then (.error .storeUnavailable, [.indexLookup cid])
        else if customerExists cid store then
          (.ok (applyAtCustomer cid failedTrialRecord store),
           [.indexLookup cid, .readUser, .writeUser])
        else (.ok store, [.indexLookup cid])
      else (.ok store, [])
  | .unhandled _ => (.ok store, [])

/-- The HTTP outcome of one webhook delivery: status code, whether the body
is the `{received: true}` acknowledgement, which failure (if any) reached
the catch block, the resulting store, and the accesses performed. -/
structure WebhookResult where
  status : Nat
  received : Bool
  err : Option WebhookErr
  store : Store
  accesses : List StoreAccess
deriving Repr, DecidableEq

/-- Full `/webhooks/stripe` request handling: signature verification
(`stripe.webhooks.constructEvent`) happens first and throws on failure;
the catch block turns every thrown error into a 400 response with the
generic WEBHOOK_SIGNATURE_ERROR code; success responds 200 with
`{received: true}`. -/
def handleWebhook (sigValid storeOk : Bool) (ev : StripeEvent) (store : Store) :
    WebhookResult :=
  if sigValid then
    match runEvent storeOk ev store with
    | (.ok store1, tr) =>
        { status := 200, received := true, err := none,
          store := store1, accesses := tr }
    | (.error e, tr) =>
        { status := 400, received := false, err := some e,
          store := store, accesses := tr }
  else
    { status := 400, received := false, err := some .signatureInvalid,
      store := store, accesses := [] }

/-- Store transition of one delivered, signature-valid event: the new store
on success, the unchanged store when the handler threw (every throw in
the handler happens before its write). -/
def applyEvent (storeOk : Bool) (ev : StripeEvent) (store : Store) : Store :=
  match (runEvent storeOk ev store).1 with
  | .ok store1 => store1
  | .error _ => store

/-- Sample user record used in witnesses and counterexamples. -/
def sampleUser : UserRecord :=
  { uid := "u1"
    displayName := "Dana"
    email := "dana@example.com"
    createdAt := "2024-01-01"
    lastLoginAt := "2024-06-01"
    summaryCount := 3
    dailySummaryCount := 1
    dailySummaryResetTime := "2024-06-02"
    plan := "free"
    stripeCustomerId := some "cus_1"
    subscription := none
    invoices := []
    otherFields := [("favoriteColor", "blue")] }

/-- Claim C1: a SubscriptionUpserted event applied to a matched record sets
`plan` to "pro" exactly when the event status is "active" or "trialing",
and to "free" for every other status value. -/
theorem claim1_plan_derivation (cid subId pid st : String) (cpe : Int)
    (cape : Bool) (te : Option Int) (r : UserRecord) :
    ((upsertRecord cid subId pid st cpe cape te r).plan = "pro"
        ↔ (st = "active" ∨ st = "trialing"))
    ∧ ((upsertRecord cid subId pid st cpe cape te r).plan = "free"
        ↔ ¬(st = "active" ∨ st = "trialing")) := by
  constructor <;>
  · show (planFor st = _ ↔ _)
    unfold planFor
    rcases h : (st == "active" || st == "trialing") with _ | _ <;>
      simp_all [Bool.or_eq_true, beq_iff_eq]

/-- Claim C7: when signature verification fails, the endpoint responds 400
with the SignatureInvalid failure before anything else happens: the store
is returned unchanged and the access trace is empty — no customer-index
read and no record mutation, whatever the event and whether or not the
store is reachable. -/
theorem claim7_signature_short_circuit (storeOk : Bool) (ev : StripeEvent)
    (s : Store) :
    handleWebhook false storeOk ev s
      = { status := 400, received := false, err := some .signatureInvalid,
          store := s, accesses := [] } := by
  simp [handleWebhook]

/-- Claim C9: an event whose type matches no switch case produces no store
mutation and no store access at all, and the endpoint still answers 200
with the `{received: true}` acknowledgement. -/
theorem claim9_unknown_event_passthrough (t : String) (storeOk : Bool)
    (s : Store) :
    handleWebhook true storeOk (.unhandled t) s
      = { status := 200, received := true, err := none,
          store := s, accesses := [] } := by
  simp [handleWebhook, runEvent]

/-- Claim C10: every write site of the webhook handlers keeps `plan` inside
the two-value enum: the upsert site writes "pro" or "free" via its
two-way conditional, the deleted and trial-failure sites write the
constant "free", and the invoice.paid site does not touch `plan`. -/
theorem claim10_plan_enum_invariant (cid subId pid st : String) (cpe : Int)
    (cape : Bool) (te : Option Int) (invId : String) (inv : InvoiceRecord)
    (r : UserRecord) :
    ((upsertRecord cid subId pid st cpe cape te r).plan = "free"
      ∨ (upsertRecord cid subId pid st cpe cape te r).plan = "pro")
    ∧ (deletedRecord r).plan = "free"
    ∧ (failedTrialRecord r).plan = "free"
    ∧ (paidRecord invId inv r).plan = r.plan := by
  refine ⟨?_, rfl, rfl, rfl⟩
  show planFor st = _ ∨ planFor st = _
  unfold planFor
  rcases (st == "active" || st == "trialing") with _ | _ <;> simp

theorem customerMatches_upsertRecord (cid subId pid st : String) (cpe : Int)
    (cape : Bool) (te : Option Int) (r : UserRecord) :
    customerMatches cid (upsertRecord cid subId pid st cpe cape te r) = true := by
  simp [customerMatches, upsertRecord]

theorem customerMatches_deletedRecord (cid : String) (r : UserRecord)
    (h : customerMatches cid r = true) :
    customerMatches cid (deletedRecord r) = true := by
  simpa [customerMatches, deletedRecord] using h

theorem customerMatches_failedTrialRecord (cid : String) (r : UserRecord)
    (h : customerMatches cid r = true) :
    customerMatches cid (failedTrialRecord r) = true := by
  simpa [customerMatches, failedTrialRecord] using h

theorem customerMatches_paidRecord (cid invId : String) (inv : InvoiceRecord)
    (r : UserRecord) (h : customerMatches cid r = true) :
    customerMatches cid (paidRecord invId inv r) = true := by
  simpa [customerMatches, paidRecord] using h

theorem customerExists_cons (cid k : String) (r : UserRecord) (rest : Store) :
    customerExists cid ((k, r) :: rest)
      = (customerMatches cid r || customerExists cid rest) := rfl

theorem customerExists_applyAtCustomer (cid : String) (f : UserRecord → UserRecord)
    (hm : ∀ r, customerMatches cid r = true → customerMatches cid (f r) = true) :
    ∀ s : Store, customerExists cid s = true →
      customerExists cid (applyAtCustomer cid f s) = true
  | [], h => by simp [customerExists] at h
  | (k, r) :: rest, h => by
      by_cases hr : customerMatches cid r = true
      · simp only [applyAtCustomer, if_pos hr]
        rw [customerExists_cons, hm r hr, Bool.true_or]
      · have hrest : customerExists cid rest = true := by
          rw [customerExists_cons, Bool.eq_false_iff.mpr hr, Bool.false_or] at h
          exact h
        simp only [applyAtCustomer, if_neg hr]
        rw [customerExists_cons,
          customerExists_applyAtCustomer cid f hm rest hrest, Bool.or_true]

theorem applyAtCustomer_idem (cid : String) (f : UserRecord → UserRecord)
    (hm : ∀ r, customerMatches cid r = true → customerMatches cid (f r) = true)
    (hf : ∀ r, customerMatches cid r = true → f (f r) = f r) :
    ∀ s : Store,
      applyAtCustomer cid f (applyAtCustomer cid f s) = applyAtCustomer cid f s
  | [] => rfl
  | (k, r) :: rest => by
      by_cases hr : customerMatches cid r = true
      · simp [applyAtCustomer, hr, hm r hr, hf r hr]
      · simp [applyAtCustomer, hr,
          applyAtCustomer_idem cid f hm hf rest]

theorem setInvoice_idem (invId : String) (inv : InvoiceRecord) :
    ∀ l, setInvoice invId inv (setInvoice invId inv l) = setInvoice invId inv l
  | [] => by simp [setInvoice]
  | (k, v) :: rest => by
      by_cases h : (k == invId) = true
      · simp [setInvoice, h]
      · simp [setInvoice, h, setInvoice_idem invId inv rest]

theorem upsertRecord_idem (cid subId pid st : String) (cpe : Int) (cape : Bool)
    (te : Option Int) (r : UserRecord) :
    upsertRecord cid subId pid st cpe cape te
        (upsertRecord cid subId pid st cpe cape te r)
      = upsertRecord cid subId pid st cpe cape te r := rfl

theorem deletedRecord_idem (r : UserRecord) :
    deletedRecord (deletedRecord r) = deletedRecord r := rfl

theorem failedTrialRecord_idem (r : UserRecord) :
    failedTrialRecord (failedTrialRecord r) = failedTrialRecord r := rfl

theorem paidRecord_idem (invId : String) (inv : InvoiceRecord) (r : UserRecord) :
    paidRecord invId inv (paidRecord invId inv r) = paidRecord invId inv r := by
  cases r
  simp [paidRecord, setInvoice_idem]

theorem applyEvent_storeDown (ev : StripeEvent) (s : Store) :
    applyEvent false ev s = s := by
  cases ev with
  | invoicePaymentFailed cid reason =>
      by_cases hb : reason = "subscription_create" <;>
        simp [applyEvent, runEvent, hb]
  | _ => simp [applyEvent, runEvent]

/-- Claim C3: applying the same event twice yields the same store as
applying it once — every transition of the handler (including the error
and store-down outcomes, which leave the store untouched) is idempotent,
so redelivery of any event reproduces the state reached after its first
delivery. -/
theorem claim3_idempotent_replay (storeOk : Bool) (ev : StripeEvent)
    (s : Store) :
    applyEvent storeOk ev (applyEvent storeOk ev s) = applyEvent storeOk ev s := by
  cases storeOk with
  | false => rw [applyEvent_storeDown, applyEvent_storeDown]
  | true =>
    cases ev with
    | subscriptionUpserted cid subId items st cpe cape te =>
        by_cases hex : customerExists cid s = true
        · cases items with
          | nil => simp [applyEvent, runEvent, hex]
          | cons p rest =>
              have hm : ∀ r, customerMatches cid r = true →
                  customerMatches cid (upsertRecord cid subId p st cpe cape te r)
                    = true :=
                fun r _ => customerMatches_upsertRecord cid subId p st cpe cape te r
              have hex1 := customerExists_applyAtCustomer cid _ hm s hex
              simp [applyEvent, runEvent, hex, hex1,
                applyAtCustomer_idem cid _ hm
                  (fun r _ => upsertRecord_idem cid subId p st cpe cape te r) s]
        · have hex0 := Bool.eq_false_iff.mpr hex
          simp [applyEvent, runEvent, hex0]
    | subscriptionDeleted cid =>
        by_cases hex : customerExists cid s = true
        · have hm := fun r h => customerMatches_deletedRecord cid r h
          have hex1 := customerExists_applyAtCustomer cid _ hm s hex
          simp [applyEvent, runEvent, hex, hex1,
            applyAtCustomer_idem cid _ hm (fun r _ => deletedRecord_idem r) s]
        · have hex0 := Bool.eq_false_iff.mpr hex
          simp [applyEvent, runEvent, hex0]
    | invoicePaid cid invId inv =>
        by_cases hex : customerExists cid s = true
        · have hm := fun r h => customerMatches_paidRecord cid invId inv r h
          have hidem := applyAtCustomer_idem cid (paidRecord invId inv) hm
            (fun r _ => paidRecord_idem invId inv r)
          have hex1 := customerExists_applyAtCustomer cid _ hm s hex
          simp [applyEvent, runEvent, hex, hex1, hidem]
        · have hex0 := Bool.eq_false_iff.mpr hex
          simp [applyEvent, runEvent, hex0]
    | invoicePaymentFailed cid reason =>
        by_cases hb : reason = "subscription_create"
        · subst hb
          by_cases hex : customerExists cid s = true
          · have hm := fun r h => customerMatches_failedTrialRecord cid r h
            have hex1 := customerExists_applyAtCustomer cid _ hm s hex
            simp [applyEvent, runEvent, hex, hex1,
              applyAtCustomer_idem cid _ hm (fun r _ => failedTrialRecord_idem r) s]
          · have hex0 := Bool.eq_false_iff.mpr hex
            simp [applyEvent, runEvent, hex0]
        · simp [applyEvent, runEvent, hb]
    | unhandled t => simp [applyEvent, runEvent]

/-- Collaborator-owned data is untouched: every field of a user record
other than `plan`, `subscription` and `invoices` keeps its pre-update
value (including `stripeCustomerId` and all keys absent from the update
maps). -/
def collabPreserved (r r1 : UserRecord) : Prop :=
  r1.uid = r.uid ∧ r1.displayName = r.displayName ∧ r1.email = r.email
    ∧ r1.createdAt = r.createdAt ∧ r1.lastLoginAt = r.lastLoginAt
    ∧ r1.summaryCount = r.summaryCount
    ∧ r1.dailySummaryCount = r.dailySummaryCount
    ∧ r1.dailySummaryResetTime = r.dailySummaryResetTime
    ∧ r1.stripeCustomerId = r.stripeCustomerId
    ∧ r1.otherFields = r.otherFields

theorem collabPreserved_refl (r : UserRecord) : collabPreserved r r :=
  ⟨rfl, rfl, rfl, rfl, rfl, rfl, rfl, rfl, rfl, rfl⟩

/-- Relation asserted between a store and its successor: same children in
the same order, each with its collaborator-owned fields intact. -/
def storePreserves (s s1 : Store) : Prop :=
  List.Forall₂ (fun p q => p.1 = q.1 ∧ collabPreserved p.2 q.2) s s1

theorem storePreserves_refl (s : Store) : storePreserves s s :=
  List.forall₂_same.2 fun _ _ => ⟨rfl, collabPreserved_refl _⟩

theorem storePreserves_applyAtCustomer (cid : String)
    (f : UserRecord → UserRecord)
    (hp : ∀ r, customerMatches cid r = true → collabPreserved r (f r)) :
    ∀ s : Store, storePreserves s (applyAtCustomer cid f s)
  | [] => List.Forall₂.nil
  | (k, r) :: rest => by
      by_cases hr : customerMatches cid r = true
      · simp only [applyAtCustomer, if_pos hr]
        exact List.Forall₂.cons ⟨rfl, hp r hr⟩ (storePreserves_refl rest)
      · simp only [applyAtCustomer, if_neg hr]
        exact List.Forall₂.cons ⟨rfl, collabPreserved_refl r⟩
          (storePreserves_applyAtCustomer cid f hp rest)

theorem collabPreserved_upsertRecord (cid subId pid st : String) (cpe : Int)
    (cape : Bool) (te : Option Int) (r : UserRecord)
    (h : customerMatches cid r = true) :
    collabPreserved r (upsertRecord cid subId pid st cpe cape te r) := by
  have hcid : r.stripeCustomerId = some cid := by
    simpa [customerMatches] using h
  exact ⟨rfl, rfl, rfl, rfl, rfl, rfl, rfl, rfl, hcid.symm, rfl⟩

theorem collabPreserved_deletedRecord (r : UserRecord) :
    collabPreserved r (deletedRecord r) :=
  ⟨rfl, rfl, rfl, rfl, rfl, rfl, rfl, rfl, rfl, rfl⟩

theorem collabPreserved_failedTrialRecord (r : UserRecord) :
    collabPreserved r (failedTrialRecord r) :=
  ⟨rfl, rfl, rfl, rfl, rfl, rfl, rfl, rfl, rfl, rfl⟩

theorem collabPreserved_paidRecord (invId : String) (inv : InvoiceRecord)
    (r : UserRecord) :
    collabPreserved r (paidRecord invId inv r) :=
  ⟨rfl, rfl, rfl, rfl, rfl, rfl, rfl, rfl, rfl, rfl⟩

/-- Claim C2: whatever event is delivered, the store transition keeps every
child at its key, and on each record every collaborator-owned field —
uid, displayName, email, createdAt, lastLoginAt, the usage counters,
stripeCustomerId, and all keys outside the update maps — keeps its
pre-update value: each mutation is a partial overlay of plan,
subscription or invoices only, never a blind overwrite. -/
theorem claim2_field_preservation (storeOk : Bool) (ev : StripeEvent)
    (s : Store) :
    storePreserves s (applyEvent storeOk ev s) := by
  cases storeOk with
  | false => rw [applyEvent_storeDown]; exact storePreserves_refl s
  | true =>
    cases ev with
    | subscriptionUpserted cid subId items st cpe cape te =>
        by_cases hex : customerExists cid s = true
        · cases items with
          | nil =>
              simp only [applyEvent, runEvent, hex]
              exact storePreserves_refl s
          | cons p rest =>
              simp only [applyEvent, runEvent, hex]
              simp only [Bool.true_eq_false, if_false]
              exact storePreserves_applyAtCustomer cid _
                (fun r h => collabPreserved_upsertRecord cid subId p st cpe cape te r h) s
        · have hex0 := Bool.eq_false_iff.mpr hex
          simp only [applyEvent, runEvent, hex0]
          exact storePreserves_refl s
    | subscriptionDeleted cid =>
        by_cases hex : customerExists cid s = true
        · simp only [applyEvent, runEvent, hex]
          exact storePreserves_applyAtCustomer cid _
            (fun r _ => collabPreserved_deletedRecord r) s
        · have hex0 := Bool.eq_false_iff.mpr hex
          simp only [applyEvent, runEvent, hex0]
          exact storePreserves_refl s
    | invoicePaid cid invId inv =>
        by_cases hex : customerExists cid s = true
        · have hm := fun r h => customerMatches_paidRecord cid invId inv r h
          have hidem := applyAtCustomer_idem cid (paidRecord invId inv) hm
            (fun r _ => paidRecord_idem invId inv r) s
          simp only [applyEvent, runEvent, hex]
          rw [hidem]
          exact storePreserves_applyAtCustomer cid _
            (fun r _ => collabPreserved_paidRecord invId inv r) s
        · have hex0 := Bool.eq_false_iff.mpr hex
          simp only [applyEvent, runEvent, hex0]
          exact storePreserves_refl s
    | invoicePaymentFailed cid reason =>
        by_cases hb : reason = "subscription_create"
        · subst hb
          by_cases hex : customerExists cid s = true
          · simp only [applyEvent, runEvent, hex]
            exact storePreserves_applyAtCustomer cid _
              (fun r _ => collabPreserved_failedTrialRecord r) s
          · have hex0 := Bool.eq_false_iff.mpr hex
            simp only [applyEvent, runEvent, hex0]
            exact storePreserves_refl s
        · simp only [applyEvent, runEvent]
          rw [if_neg (by simpa using hb)]
          exact storePreserves_refl s
    | unhandled t =>
        simp only [applyEvent, runEvent]
        exact storePreserves_refl s

/-- Claim C4: when no record matches the customer id, a SubscriptionUpserted
event is a hard failure — 400 client error carrying the UserNotFound
failure (the thrown "No user found for customer"), store unchanged —
while SubscriptionDeleted, InvoicePaid and InvoicePaymentFailed events
with an unmatched customer id are silent no-ops that still acknowledge
with 200 `{received: true}` and mutate nothing. -/
theorem claim4_unmatched_customer (cid : String) (s : Store)
    (hex : customerExists cid s = false) :
    (∀ subId : String, ∀ items : List String, ∀ st : String, ∀ cpe : Int,
        ∀ cape : Bool, ∀ te : Option Int,
        handleWebhook true true
            (.subscriptionUpserted cid subId items st cpe cape te) s
          = { status := 400, received := false, err := some .userNotFound,
              store := s, accesses := [.indexLookup cid] })
    ∧ handleWebhook true true (.subscriptionDeleted cid) s
        = { status := 200, received := true, err := none,
            store := s, accesses := [.indexLookup cid] }
    ∧ (∀ invId : String, ∀ inv : InvoiceRecord,
        handleWebhook true true (.invoicePaid cid invId inv) s
          = { status := 200, received := true, err := none,
              store := s, accesses := [.indexLookup cid] })
    ∧ (∀ reason : String,
        (handleWebhook true true (.invoicePaymentFailed cid reason) s).status = 200
        ∧ (handleWebhook true true (.invoicePaymentFailed cid reason) s).received
            = true
        ∧ (handleWebhook true true (.invoicePaymentFailed cid reason) s).store = s) := by
  refine ⟨fun subId items st cpe cape te => ?_, ?_, fun invId inv => ?_,
    fun reason => ?_⟩
  · simp [handleWebhook, runEvent, hex]
  · simp [handleWebhook, runEvent, hex]
  · simp [handleWebhook, runEvent, hex]
  · by_cases hb : reason = "subscription_create" <;>
      simp [handleWebhook, runEvent, hb, hex]

theorem claim4_witness :
    handleWebhook true true
        (.subscriptionUpserted "cus_9" "sub_1" ["price_1"] "active" 0 false none)
        [("u1", sampleUser)]
      = { status := 400, received := false, err := some .userNotFound,
          store := [("u1", sampleUser)], accesses := [.indexLookup "cus_9"] }
    ∧ handleWebhook true true (.subscriptionDeleted "cus_9") [("u1", sampleUser)]
        = { status := 200, received := true, err := none,
            store := [("u1", sampleUser)], accesses := [.indexLookup "cus_9"] } :=
  ⟨(claim4_unmatched_customer "cus_9" [("u1", sampleUser)] (by decide)).1
      "sub_1" ["price_1"] "active" 0 false none,
   (claim4_unmatched_customer "cus_9" [("u1", sampleUser)] (by decide)).2.1⟩

/-- Claim C5: an InvoicePaymentFailed event with billingReason
"subscription_create" applied to a matched record sets `plan` to "free"
and clears `subscription` to null; any other billingReason is checked
before the database is touched, so it produces no mutation and no store
access while still acknowledging with 200. -/
theorem claim5_trial_failure_downgrade (cid reason : String) (s : Store) :
    (∀ r : UserRecord, (failedTrialRecord r).plan = "free"
        ∧ (failedTrialRecord r).subscription = none)
    ∧ (customerExists cid s = true →
        handleWebhook true true
            (.invoicePaymentFailed cid "subscription_create") s
          = { status := 200, received := true, err := none,
              store := applyAtCustomer cid failedTrialRecord s,
              accesses := [.indexLookup cid, .readUser, .writeUser] })
    ∧ (reason ≠ "subscription_create" →
        handleWebhook true true (.invoicePaymentFailed cid reason) s
          = { status := 200, received := true, err := none,
              store := s, accesses := [] }) := by
  refine ⟨fun r => ⟨rfl, rfl⟩, fun hex => ?_, fun hne => ?_⟩
  · simp [handleWebhook, runEvent, hex]
  · simp [handleWebhook, runEvent, hne]

theorem claim5_witness :
    handleWebhook true true
        (.invoicePaymentFailed "cus_1" "subscription_create") [("u1", sampleUser)]
      = { status := 200, received := true, err := none,
          store := applyAtCustomer "cus_1" failedTrialRecord [("u1", sampleUser)],
          accesses := [.indexLookup "cus_1", .readUser, .writeUser] }
    ∧ handleWebhook true true
        (.invoicePaymentFailed "cus_1" "card_declined") [("u1", sampleUser)]
      = { status := 200, received := true, err := none,
          store := [("u1", sampleUser)], accesses := [] } :=
  ⟨(claim5_trial_failure_downgrade "cus_1" "card_declined"
      [("u1", sampleUser)]).2.1 (by decide),
   (claim5_trial_failure_downgrade "cus_1" "card_declined"
      [("u1", sampleUser)]).2.2 (by decide)⟩

/-- Claim C8: with a matched customer, a SubscriptionUpserted event whose
item list is empty fails with the MalformedEvent failure (the TypeError
at `items.data[0].price`) as a 400 response before any write, leaving the
store unchanged; with a non-empty item list the handler succeeds and the
written subscription takes its priceId from the first line item. -/
theorem claim8_priceId_first_item (cid subId st : String) (cpe : Int)
    (cape : Bool) (te : Option Int) (s : Store)
    (hex : customerExists cid s = true) :
    handleWebhook true true
        (.subscriptionUpserted cid subId [] st cpe cape te) s
      = { status := 400, received := false, err := some .malformedEvent,
          store := s, accesses := [.indexLookup cid, .readUser] }
    ∧ (∀ p : String, ∀ rest : List String,
        handleWebhook true true
            (.subscriptionUpserted cid subId (p :: rest) st cpe cape te) s
          = { status := 200, received := true, err := none,
              store := applyAtCustomer cid
                (upsertRecord cid subId p st cpe cape te) s,
              accesses := [.indexLookup cid, .readUser, .writeUser] })
    ∧ (∀ p : String, ∀ r : UserRecord,
        (upsertRecord cid subId p st cpe cape te r).subscription
          = some { subscriptionId := subId, priceId := p, status := st,
                   currentPeriodEnd := cpe, cancelAtPeriodEnd := cape,
                   trialEnd := te }) := by
  refine ⟨?_, fun p rest => ?_, fun p r => rfl⟩
  · simp [handleWebhook, runEvent, hex]
  · simp [handleWebhook, runEvent, hex]

theorem claim8_witness :
    handleWebhook true true
        (.subscriptionUpserted "cus_1" "sub_1" [] "active" 1700000000 false none)
        [("u1", sampleUser)]
      = { status := 400, received := false, err := some .malformedEvent,
          store := [("u1", sampleUser)],
          accesses := [.indexLookup "cus_1", .readUser] } :=
  (claim8_priceId_first_item "cus_1" "sub_1" "active" 1700000000 false none
      [("u1", sampleUser)] (by decide)).1

/-- Claim C6 counterexample: a transient store failure while handling a
SubscriptionUpserted event for an existing user reaches the catch block
as StoreUnavailable, yet the endpoint responds 400 — a client error, not
the 5xx-class server error the claim requires. -/
theorem claim6_counterexample :
    (handleWebhook true false
        (.subscriptionUpserted "cus_1" "sub_1" ["price_1"] "active" 0 false none)
        [("u1", sampleUser)]).err = some .storeUnavailable
    ∧ (handleWebhook true false
        (.subscriptionUpserted "cus_1" "sub_1" ["price_1"] "active" 0 false none)
        [("u1", sampleUser)]).status = 400
    ∧ ¬ 500 ≤ (handleWebhook true false
        (.subscriptionUpserted "cus_1" "sub_1" ["price_1"] "active" 0 false none)
        [("u1", sampleUser)]).status := by
  decide

/-- Claim C6 as amended: the catch block maps every thrown error to the
same 400 client-error response, so a transient store failure is also
surfaced as 400 with the generic code — indistinguishable by status
class from SignatureInvalid, MalformedEvent and UserNotFound — and the
store is left unchanged. -/
theorem claim6_amended_store_failure_is_4xx (sigValid storeOk : Bool)
    (ev : StripeEvent) (s : Store)
    (h : (handleWebhook sigValid storeOk ev s).err = some .storeUnavailable) :
    (handleWebhook sigValid storeOk ev s).status = 400
    ∧ (handleWebhook sigValid storeOk ev s).received = false
    ∧ (handleWebhook sigValid storeOk ev s).store = s := by
  cases sigValid with
  | false => simp [handleWebhook]
  | true =>
      simp only [handleWebhook, if_true] at h ⊢
      rcases hrun : runEvent storeOk ev s with ⟨res, tr⟩
      rw [hrun] at h
      cases res with
      | ok s1 => exact Option.noConfusion h
      | error e => exact ⟨rfl, rfl, rfl⟩

theorem claim6_witness :
    (handleWebhook true false (.subscriptionDeleted "cus_1")
        [("u1", sampleUser)]).status = 400 :=
  (claim6_amended_store_failure_is_4xx true false (.subscriptionDeleted "cus_1")
      [("u1", sampleUser)] (by decide)).1
